import Mathlib

/-!
Shallow embedding of the geometry core of the NoLimits 2 CSV importer and
exporter (source file io_import_nolimits_csv.py), together with proofs of
the specified properties.  The Python float arithmetic is modelled with
exact scalars: the pure data plumbing (parser, sampler bookkeeping, CSV row
serialization) over the rationals, and the trigonometric tilt computation
over the reals.
-/

/-- A 3-component vector, the model of a mathutils.Vector restricted to
three components.  The scalar type is a parameter so that the same value
algebra serves the rational data-plumbing model and the real geometry
model. -/
structure Vec3 (α : Type) where
  x : α
  y : α
  z : α
deriving DecidableEq, Repr

namespace Vec3

def sub {α : Type} [Sub α] (a b : Vec3 α) : Vec3 α :=
  ⟨a.x - b.x, a.y - b.y, a.z - b.z⟩

def dot {α : Type} [Mul α] [Add α] (a b : Vec3 α) : α :=
  a.x * b.x + a.y * b.y + a.z * b.z

def cross {α : Type} [Mul α] [Sub α] (a b : Vec3 α) : Vec3 α :=
  ⟨a.y * b.z - a.z * b.y, a.z * b.x - a.x * b.z, a.x * b.y - a.y * b.x⟩

def smul {α : Type} [Mul α] (k : α) (v : Vec3 α) : Vec3 α :=
  ⟨k * v.x, k * v.y, k * v.z⟩

def lengthSq {α : Type} [Mul α] [Add α] (v : Vec3 α) : α :=
  v.dot v

end Vec3

/-- The fixed basis-change matrix of the source (line 32), as its three
rows: ((1,0,0), (0,0,-1), (0,1,0)). -/
def TO_BLENDER_COORDINATES (α : Type) [Ring α] : Vec3 (Vec3 α) :=
  ⟨⟨1, 0, 0⟩, ⟨0, 0, -1⟩, ⟨0, 1, 0⟩⟩

/-- Application of TO_BLENDER_COORDINATES to a vector (the expression
`TO_BLENDER_COORDINATES @ v` of the source): the map from source (NoLimits)
coordinates to target (Blender) coordinates. -/
def to_target {α : Type} [Ring α] (v : Vec3 α) : Vec3 α :=
  ⟨(TO_BLENDER_COORDINATES α).x.dot v,
   (TO_BLENDER_COORDINATES α).y.dot v,
   (TO_BLENDER_COORDINATES α).z.dot v⟩

/-- The inverse coordinate map, as serialized by the export routine
(lines 270 and 272 of the source write `pos.x, pos.z, -pos.y` and
`up.x, up.z, -up.y`): source.x = target.x, source.y = target.z,
source.z = -target.y. -/
def to_source {α : Type} [Ring α] (v : Vec3 α) : Vec3 α :=
  ⟨v.x, v.z, -v.y⟩

/-- C3: the coordinate maps to_target (target.x = source.x,
target.y = -source.z, target.z = source.y) and to_source (source.x =
target.x, source.y = target.z, source.z = -target.y) are mutually inverse:
for every 3D vector v, to_source (to_target v) = v and
to_target (to_source v) = v. -/
theorem coordinate_roundtrip (v : Vec3 ℚ) :
    to_source (to_target v) = v ∧ to_target (to_source v) = v := by
  obtain ⟨x, y, z⟩ := v
  constructor <;>
    simp [to_source, to_target, TO_BLENDER_COORDINATES, Vec3.dot]

/-!
## Record parser (get_vertices_from_csv, source lines 39-79)

A raw input line is modelled at the granularity the function observes it:
a list of cells, where each cell either parses as a floating-point number
(`some q`) or raises ValueError on `float` (`none`).  A blank line is the
empty list.  Column 0 (the "No." column) is never passed to `float` and so
carries no parsed value that the function could see; modelling it as a
cell like the others keeps the positions aligned with the source comments.
-/

/-- One parsed station record: the dictionary built at source lines 55-70,
with keys pos, front, left, up. -/
structure Station where
  pos : Vec3 ℚ
  front : Vec3 ℚ
  left : Vec3 ℚ
  up : Vec3 ℚ
deriving DecidableEq, Repr

/-- The cell of `row` at index `i`; out-of-range indices behave as a
failed parse (the IndexError branch of the source skips such lines). -/
def cellAt (row : List (Option ℚ)) (i : ℕ) : Option ℚ :=
  row.getD i none

/-- The loop body of get_vertices_from_csv for one csv row: `none` when the
line is skipped (blank, fewer than 13 columns, or a ValueError from one of
the twelve `float` calls on columns 1-12), `some` station otherwise. -/
def parseRow (row : List (Option ℚ)) : Option Station :=
  if row.length < 13 then none
  else do
    let p1 ← cellAt row 1
    let p2 ← cellAt row 2
    let p3 ← cellAt row 3
    let f1 ← cellAt row 4
    let f2 ← cellAt row 5
    let f3 ← cellAt row 6
    let l1 ← cellAt row 7
    let l2 ← cellAt row 8
    let l3 ← cellAt row 9
    let u1 ← cellAt row 10
    let u2 ← cellAt row 11
    let u3 ← cellAt row 12
    pure ⟨⟨p1, p2, p3⟩, ⟨f1, f2, f3⟩, ⟨l1, l2, l3⟩, ⟨u1, u2, u3⟩⟩

/-- get_vertices_from_csv: fold parseRow over the rows of the file,
keeping the successfully parsed stations in input order. -/
def get_vertices_from_csv (rows : List (List (Option ℚ))) : List Station :=
  rows.filterMap parseRow

/-- A valid data line in the sense of the specification: at least 13
columns, and columns 1 through 12 all parse as floating-point numbers. -/
def validLine (row : List (Option ℚ)) : Bool :=
  decide (13 ≤ row.length) &&
  (cellAt row 1).isSome && (cellAt row 2).isSome && (cellAt row 3).isSome &&
  (cellAt row 4).isSome && (cellAt row 5).isSome && (cellAt row 6).isSome &&
  (cellAt row 7).isSome && (cellAt row 8).isSome && (cellAt row 9).isSome &&
  (cellAt row 10).isSome && (cellAt row 11).isSome && (cellAt row 12).isSome

/-- The value of column `i` of a valid line (defaulting to 0 so that the
extraction is total). -/
def colVal (row : List (Option ℚ)) (i : ℕ) : ℚ :=
  (cellAt row i).getD 0

/-- The station a valid line denotes, read off columns 1-12. -/
def stationOf (row : List (Option ℚ)) : Station :=
  ⟨⟨colVal row 1, colVal row 2, colVal row 3⟩,
   ⟨colVal row 4, colVal row 5, colVal row 6⟩,
   ⟨colVal row 7, colVal row 8, colVal row 9⟩,
   ⟨colVal row 10, colVal row 11, colVal row 12⟩⟩

set_option maxHeartbeats 2000000 in
theorem parseRow_eq (row : List (Option ℚ)) :
    parseRow row = if validLine row then some (stationOf row) else none := by
  by_cases hl : row.length < 13
  · have hd : decide (13 ≤ row.length) = false := decide_eq_false (by omega)
    simp only [parseRow, validLine, if_pos hl, hd, Bool.false_and,
      Bool.false_eq_true, if_false]
  · have hd : decide (13 ≤ row.length) = true := decide_eq_true (by omega)
    rcases h1 : cellAt row 1 with _ | a1
    · simp only [parseRow, validLine, if_neg hl, hd, h1, Option.bind_eq_bind,
        Option.none_bind, Option.isSome_none, Bool.true_and, Bool.false_and,
        Bool.false_eq_true, if_false]
    rcases h2 : cellAt row 2 with _ | a2
    · simp only [parseRow, validLine, if_neg hl, hd, h1, h2, Option.bind_eq_bind,
        Option.none_bind, Option.some_bind, Option.isSome_none, Option.isSome_some,
        Bool.true_and, Bool.and_false, Bool.false_and, Bool.false_eq_true, if_false]
    rcases h3 : cellAt row 3 with _ | a3
    · simp only [parseRow, validLine, if_neg hl, hd, h1, h2, h3, Option.bind_eq_bind,
        Option.none_bind, Option.some_bind, Option.isSome_none, Option.isSome_some,
        Bool.true_and, Bool.and_false, Bool.false_and, Bool.false_eq_true, if_false]
    rcases h4 : cellAt row 4 with _ | a4
    · simp only [parseRow, validLine, if_neg hl, hd, h1, h2, h3, h4, Option.bind_eq_bind,
        Option.none_bind, Option.some_bind, Option.isSome_none, Option.isSome_some,
        Bool.true_and, Bool.and_false, Bool.false_and, Bool.false_eq_true, if_false]
    rcases h5 : cellAt row 5 with _ | a5
    · simp only [parseRow, validLine, if_neg hl, hd, h1, h2, h3, h4, h5,
        Option.bind_eq_bind,
        Option.none_bind, Option.some_bind, Option.isSome_none, Option.isSome_some,
        Bool.true_and, Bool.and_false, Bool.false_and, Bool.false_eq_true, if_false]
    rcases h6 : cellAt row 6 with _ | a6
    · simp only [parseRow, validLine, if_neg hl, hd, h1, h2, h3, h4, h5, h6,
        Option.bind_eq_bind,
        Option.none_bind, Option.some_bind, Option.isSome_none, Option.isSome_some,
        Bool.true_and, Bool.and_false, Bool.false_and, Bool.false_eq_true, if_false]
    rcases h7 : cellAt row 7 with _ | a7
    · simp only [parseRow, validLine, if_neg hl, hd, h1, h2, h3, h4, h5, h6, h7,
        Option.bind_eq_bind,
        Option.none_bind, Option.some_bind, Option.isSome_none, Option.isSome_some,
        Bool.true_and, Bool.and_false, Bool.false_and, Bool.false_eq_true, if_false]
    rcases h8 : cellAt row 8 with _ | a8
    · simp only [parseRow, validLine, if_neg hl, hd, h1, h2, h3, h4, h5, h6, h7, h8,
        Option.bind_eq_bind,
        Option.none_bind, Option.some_bind, Option.isSome_none, Option.isSome_some,
        Bool.true_and, Bool.and_false, Bool.false_and, Bool.false_eq_true, if_false]
    rcases h9 : cellAt row 9 with _ | a9
    · simp only [parseRow, validLine, if_neg hl, hd, h1, h2, h3, h4, h5, h6, h7, h8, h9,
        Option.bind_eq_bind,
        Option.none_bind, Option.some_bind, Option.isSome_none, Option.isSome_some,
        Bool.true_and, Bool.and_false, Bool.false_and, Bool.false_eq_true, if_false]
    rcases h10 : cellAt row 10 with _ | a10
    · simp only [parseRow, validLine, if_neg hl, hd, h1, h2, h3, h4, h5, h6, h7, h8, h9,
        h10, Option.bind_eq_bind,
        Option.none_bind, Option.some_bind, Option.isSome_none, Option.isSome_some,
        Bool.true_and, Bool.and_false, Bool.false_and, Bool.false_eq_true, if_false]
    rcases h11 : cellAt row 11 with _ | a11
    · simp only [parseRow, validLine, if_neg hl, hd, h1, h2, h3, h4, h5, h6, h7, h8, h9,
        h10, h11, Option.bind_eq_bind,
        Option.none_bind, Option.some_bind, Option.isSome_none, Option.isSome_some,
        Bool.true_and, Bool.and_false, Bool.false_and, Bool.false_eq_true, if_false]
    rcases h12 : cellAt row 12 with _ | a12
    · simp only [parseRow, validLine, if_neg hl, hd, h1, h2, h3, h4, h5, h6, h7, h8, h9,
        h10, h11, h12, Option.bind_eq_bind,
        Option.none_bind, Option.some_bind, Option.isSome_none, Option.isSome_some,
        Bool.true_and, Bool.and_false, Bool.false_and, Bool.false_eq_true, if_false]
    simp only [parseRow, validLine, stationOf, colVal, if_neg hl, hd, h1, h2, h3, h4,
      h5, h6, h7, h8, h9, h10, h11, h12, Option.bind_eq_bind,
      Option.some_bind, Option.isSome_some, Option.getD_some,
      Bool.true_and, Bool.and_true, if_true, pure]

/-- C4: the parser returns exactly one Station per valid data line (a line
with at least 13 tab-separated columns whose columns 1-12 all parse as
floating-point numbers), in original input order; blank lines, short
lines, and lines with a non-numeric required column are skipped without
error, and a file with no valid lines yields the empty sequence. -/
theorem parser_line_invariant (rows : List (List (Option ℚ))) :
    get_vertices_from_csv rows = (rows.filter validLine).map stationOf := by
  induction rows with
  | nil => rfl
  | cons r rs ih =>
    by_cases h : validLine r
    · simp [get_vertices_from_csv, List.filterMap_cons, List.filter_cons,
        parseRow_eq, h] at ih ⊢
      exact ih
    · simp [get_vertices_from_csv, List.filterMap_cons, List.filter_cons,
        parseRow_eq, h] at ih ⊢
      exact ih

theorem cellAt_congr_take (r1 r2 : List (Option ℚ)) (ht : r1.take 13 = r2.take 13)
    (i : ℕ) (hi : i < 13) : cellAt r1 i = cellAt r2 i := by
  unfold cellAt
  rw [List.getD_eq_getElem?_getD, List.getD_eq_getElem?_getD,
    ← List.getElem?_take_of_lt (l := r1) hi, ← List.getElem?_take_of_lt (l := r2) hi, ht]

theorem length_ge_of_take_eq (r1 r2 : List (Option ℚ)) (h13 : 13 ≤ r1.length)
    (ht : r1.take 13 = r2.take 13) : 13 ≤ r2.length := by
  have h1 : (r1.take 13).length = 13 := by
    simp [List.length_take]
    omega
  have h2 : (r2.take 13).length = (r1.take 13).length := by rw [ht]
  simp [List.length_take, h1] at h2
  omega

/-- C10: for every input line with 13 or more columns whose columns 1-12
parse as floating-point numbers, the parser accepts the line and builds
the Station from columns 0-12 only: any columns beyond index 12 are
ignored, so two lines that agree on their first 13 columns yield
identical parse results. -/
theorem parser_extra_columns (r1 r2 : List (Option ℚ)) (h13 : 13 ≤ r1.length)
    (ht : r1.take 13 = r2.take 13) (hv : validLine r1 = true) :
    parseRow r1 = some (stationOf r1) ∧ parseRow r2 = parseRow r1 := by
  have h23 : 13 ≤ r2.length := length_ge_of_take_eq r1 r2 h13 ht
  have hcell : ∀ i, i < 13 → cellAt r1 i = cellAt r2 i :=
    fun i hi => cellAt_congr_take r1 r2 ht i hi
  have hvalid : validLine r2 = validLine r1 := by
    unfold validLine
    rw [hcell 1 (by omega), hcell 2 (by omega), hcell 3 (by omega), hcell 4 (by omega),
      hcell 5 (by omega), hcell 6 (by omega), hcell 7 (by omega), hcell 8 (by omega),
      hcell 9 (by omega), hcell 10 (by omega), hcell 11 (by omega), hcell 12 (by omega),
      decide_eq_true h13, decide_eq_true h23]
  have hstation : stationOf r2 = stationOf r1 := by
    unfold stationOf colVal
    rw [hcell 1 (by omega), hcell 2 (by omega), hcell 3 (by omega), hcell 4 (by omega),
      hcell 5 (by omega), hcell 6 (by omega), hcell 7 (by omega), hcell 8 (by omega),
      hcell 9 (by omega), hcell 10 (by omega), hcell 11 (by omega), hcell 12 (by omega)]
  constructor
  · rw [parseRow_eq, hv]
    simp
  · rw [parseRow_eq, parseRow_eq, hvalid, hstation]

/-- Witness for parser_extra_columns: two concrete 14-column lines that
agree on the first 13 columns but differ in column 13 parse to the same
accepted Station. -/
theorem parser_extra_columns_witness :
    parseRow (none :: List.replicate 12 (some (1 : ℚ)) ++ [some 5]) =
        some (stationOf (none :: List.replicate 12 (some (1 : ℚ)) ++ [some 5])) ∧
      parseRow (none :: List.replicate 12 (some (1 : ℚ)) ++ [some 7]) =
        parseRow (none :: List.replicate 12 (some (1 : ℚ)) ++ [some 5]) :=
  parser_extra_columns _ _ (by decide) (by decide) (by decide)

/-!
## Curve sampler and CSV export (sample_curve_as_csv, source lines 225-279)

The Blender collaborators are abstracted to exactly the capabilities the
function uses: the active object (possibly absent) with its type string
and the point counts of its splines, and the evaluation of the transient
path-following reader at a parametric offset, which yields a world matrix
or raises a host error.  File output is modelled as the list of
(file name, header, rows) writes the call performs; the transient reader
left linked into the scene at return time is recorded in a flag.
-/

/-- The evaluated world matrix of the reader: four columns, of which the
source reads col[2] (the up axis) and col[3] (the position); col[0] and
col[1] (the right and forward axes) are carried for the non-degeneracy
statements. -/
structure Mat4 where
  col0 : Vec3 ℚ
  col1 : Vec3 ℚ
  col2 : Vec3 ℚ
  col3 : Vec3 ℚ
deriving DecidableEq, Repr

/-- The active object, reduced to what sample_curve_as_csv reads: its
type string and len(points) of each spline of its data. -/
structure BObject where
  objType : String
  splinePointCounts : List ℕ
deriving DecidableEq, Repr

/-- The context collaborator: context.active_object, plus the evaluation
of the temporary reader at an offset factor, producing the evaluated
world matrix or raising a host-side error. -/
structure BContext where
  activeObject : Option BObject
  evalAt : ℚ → Except Unit Mat4

/-- Outcome values of the operation (the returned set literal). -/
inductive OpResult
  | finished
  | cancelled
deriving DecidableEq, Repr

/-- One write of serialized CSV text: target file name (final path
component), the fixed header line, and the numeric rows. -/
structure CsvWrite where
  path : List Char
  header : String
  rows : List (List ℚ)
deriving DecidableEq, Repr

/-- Full observable outcome of one call to sample_curve_as_csv: the
returned value (or a propagated host error), the writes performed, and
whether the temporary curve reader is still linked into the scene when
the call exits. -/
structure ExportOutcome where
  result : Except Unit OpResult
  writes : List CsvWrite
  readerLinked : Bool
deriving Repr

/-- Source lines 232-236: a requested count of 0 falls back to the point
count of the first spline of the curve, or to 0 if there are no splines. -/
def resolveCount (splines : List ℕ) (point_count : ℕ) : ℕ :=
  if point_count = 0 then splines.headD 0 else point_count

/-- Source lines 243-245: the divisor for the offset factors, clamped to
1 when point_count - 1 would be zero or negative. -/
def largestIndex (point_count : ℕ) : ℤ :=
  if (point_count : ℤ) - 1 ≤ 0 then 1 else (point_count : ℤ) - 1

/-- The parametric offsets the sampling loop visits (source lines
250-251): i / largest_index for i in range(point_count), after the count
has been resolved. -/
def sampleOffsets (splines : List ℕ) (point_count : ℕ) : List ℚ :=
  let c := resolveCount splines point_count
  (List.range c).map (fun (i : ℕ) => (i : ℚ) / ((largestIndex c : ℤ) : ℚ))

/-- One serialized data row (source lines 266-273): 1-based index, the
inverse-mapped position (pos.x, pos.z, -pos.y), six literal zeros for the
Front and Left columns, and the inverse-mapped up axis
(up.x, up.z, -up.y), where pos is column 3 and up is column 2 of the
evaluated matrix. -/
def csvRow (i : ℕ) (m : Mat4) : List ℚ :=
  [(i : ℚ) + 1,
   m.col3.x, m.col3.z, -m.col3.y,
   0, 0, 0,
   0, 0, 0,
   m.col2.x, m.col2.z, -m.col2.y]

/-- The fixed quoted header row (source lines 260-263). -/
def CSV_HEADER : String :=
  "\"No.\"\t\"PosX\"\t\"PosY\"\t\"PosZ\"\t\"FrontX\"\t\"FrontY\"\t\"FrontZ\"\t\"LeftX\"\t\"LeftY\"\t\"LeftZ\"\t\"UpX\"\t\"UpY\"\t\"UpZ\""

/-- Index of the last dot of a name, if any. -/
def lastDotIdx : List Char → Option ℕ
  | [] => none
  | c :: cs =>
    match lastDotIdx cs with
    | some j => some (j + 1)
    | none => if c = '.' then some 0 else none

/-- The pathlib suffix of a file name: the part from the last dot on,
provided that dot is neither the leading character nor the final one. -/
def pathSuffix (name : List Char) : List Char :=
  match lastDotIdx name with
  | some i => if 0 < i ∧ i + 1 < name.length then name.drop i else []
  | none => []

/-- The file name with its pathlib suffix removed. -/
def pathStem (name : List Char) : List Char :=
  name.take (name.length - (pathSuffix name).length)

/-- The characters of the extension ".csv". -/
def csvExt : List Char := ['.', 'c', 's', 'v']

/-- file_path_obj.with_suffix(".csv") on the final path component
(source line 276), per the pathlib semantics: strip the existing suffix,
if any, and append ".csv".  pathlib raises for an empty name; the
statements about this function therefore assume a non-empty name. -/
def withSuffixCsv (name : List Char) : List Char :=
  pathStem name ++ csvExt

/-- sample_curve_as_csv.  The validity check is source lines 227-229; the
count resolution is lines 231-245; the sampling loop (lines 247-256)
creates the temporary reader, evaluates it at each offset, and breaks out
with a propagated exception if the host raises; line 258 removes the
reader, and is reached only when the loop completes; lines 260-277
serialize the rows and write the file. -/
def sample_curve_as_csv (context : BContext) (name : List Char)
    (point_count : ℕ) : ExportOutcome :=
  match context.activeObject with
  | none => ⟨Except.ok OpResult.cancelled, [], false⟩
  | some curve =>
    if curve.objType ≠ "CURVE" then ⟨Except.ok OpResult.cancelled, [], false⟩
    else
      match (sampleOffsets curve.splinePointCounts point_count).mapM context.evalAt with
      | Except.error e => ⟨Except.error e, [], true⟩
      | Except.ok matrices =>
        ⟨Except.ok OpResult.finished,
         [⟨withSuffixCsv name, CSV_HEADER,
           matrices.enum.map (fun p => csvRow p.1 p.2)⟩],
         false⟩

theorem sample_curve_as_csv_none (evalAt : ℚ → Except Unit Mat4)
    (name : List Char) (point_count : ℕ) :
    sample_curve_as_csv ⟨none, evalAt⟩ name point_count =
      ⟨Except.ok OpResult.cancelled, [], false⟩ := rfl

theorem sample_curve_as_csv_some (c : BObject) (evalAt : ℚ → Except Unit Mat4)
    (name : List Char) (point_count : ℕ) :
    sample_curve_as_csv ⟨some c, evalAt⟩ name point_count =
      if c.objType ≠ "CURVE" then ⟨Except.ok OpResult.cancelled, [], false⟩
      else
        match (sampleOffsets c.splinePointCounts point_count).mapM evalAt with
        | Except.error e => ⟨Except.error e, [], true⟩
        | Except.ok matrices =>
          ⟨Except.ok OpResult.finished,
           [⟨withSuffixCsv name, CSV_HEADER,
             matrices.enum.map (fun p => csvRow p.1 p.2)⟩],
           false⟩ := rfl

/-- C6: if point_count = 0 the sampler produces exactly N samples where N
is the native point count of the first spline of the curve (and an empty
result when the curve reports 0 points); otherwise it produces exactly
point_count samples at parametric offsets i / (point_count - 1), with the
denominator treated as 1 when point_count is at most 1, so that
point_count = 1 yields exactly one sample at offset 0. -/
theorem sampler_count_contract (splines : List ℕ) (point_count : ℕ) :
    (point_count = 0 →
      (sampleOffsets splines point_count).length = splines.headD 0) ∧
    (0 < point_count →
      sampleOffsets splines point_count = (List.range point_count).map
        (fun (i : ℕ) => (i : ℚ) /
          (if point_count ≤ 1 then 1 else (point_count : ℚ) - 1))) := by
  constructor
  · intro h
    subst h
    unfold sampleOffsets
    rw [List.length_map, List.length_range]
    unfold resolveCount
    rw [if_pos rfl]
  · intro h
    have hres : resolveCount splines point_count = point_count := by
      unfold resolveCount
      rw [if_neg (by omega)]
    have hden : ((largestIndex point_count : ℤ) : ℚ) =
        if point_count ≤ 1 then 1 else (point_count : ℚ) - 1 := by
      unfold largestIndex
      by_cases h1 : point_count ≤ 1
      · have hpc : point_count = 1 := by omega
        subst hpc
        norm_num
      · rw [if_neg (by omega), if_neg h1]
        push_cast
        ring
    unfold sampleOffsets
    rw [hres]
    simp only [hden]

/-- Witness for sampler_count_contract at a curve with 3 native points:
point_count = 0 yields 3 samples and point_count = 1 yields the single
sample at offset 0. -/
theorem sampler_count_contract_witness :
    ((sampleOffsets [3] 0).length = [3].headD 0) ∧
      sampleOffsets [3] 1 = (List.range 1).map
        (fun (i : ℕ) => (i : ℚ) / (if 1 ≤ 1 then 1 else ((1 : ℕ) : ℚ) - 1)) :=
  ⟨(sampler_count_contract [3] 0).1 rfl, (sampler_count_contract [3] 1).2 (by norm_num)⟩

/-- C7: whenever no active object exists or the active object is not
curve-typed, the export operation returns the invalid-input outcome
CANCELLED and performs no file writes. -/
theorem invalid_input_no_writes (context : BContext) (name : List Char)
    (point_count : ℕ)
    (h : context.activeObject = none ∨
      ∃ c, context.activeObject = some c ∧ c.objType ≠ "CURVE") :
    (sample_curve_as_csv context name point_count).result =
        Except.ok OpResult.cancelled ∧
      (sample_curve_as_csv context name point_count).writes = [] := by
  obtain ⟨ao, evalAt⟩ := context
  rcases h with h | ⟨c, hc, ht⟩
  · simp only at h
    subst h
    rw [sample_curve_as_csv_none]
    exact ⟨rfl, rfl⟩
  · simp only at hc
    subst hc
    rw [sample_curve_as_csv_some, if_pos ht]
    exact ⟨rfl, rfl⟩

/-- The orthonormal evaluated frame of the regression scenario: right
axis (1,0,0), forward axis (0,1,0), up axis (0,0,1), and position
(10,20,30), all in target coordinates. -/
def mFrame : Mat4 :=
  ⟨⟨1, 0, 0⟩, ⟨0, 1, 0⟩, ⟨0, 0, 1⟩, ⟨10, 20, 30⟩⟩

/-- A context with no active object. -/
def ctxNone : BContext :=
  ⟨none, fun _ => Except.ok mFrame⟩

/-- Witness for invalid_input_no_writes: a context without an active
object is cancelled without writes. -/
theorem invalid_input_no_writes_witness :
    (sample_curve_as_csv ctxNone ("track".toList) 0).result =
        Except.ok OpResult.cancelled ∧
      (sample_curve_as_csv ctxNone ("track".toList) 0).writes = [] :=
  invalid_input_no_writes ctxNone ("track".toList) 0 (Or.inl rfl)

/-- C5 (amended): the temporary path-following reader is removed from
the object graph before sample_curve_as_csv returns on every non-raising
exit path, but when the per-sample evaluation raises, the error
propagates with the reader still linked (the removal at source line 258
is not protected by any finally block). -/
theorem reader_removed_iff_ok (context : BContext) (name : List Char)
    (point_count : ℕ) :
    (sample_curve_as_csv context name point_count).readerLinked = true ↔
      ∃ e, (sample_curve_as_csv context name point_count).result =
        Except.error e := by
  obtain ⟨ao, evalAt⟩ := context
  rcases ao with _ | curve
  · rw [sample_curve_as_csv_none]
    simp
  · rw [sample_curve_as_csv_some]
    by_cases ht : curve.objType ≠ "CURVE"
    · rw [if_pos ht]
      simp
    · rw [if_neg ht]
      rcases hm : (sampleOffsets curve.splinePointCounts point_count).mapM evalAt
        with e | ms <;> simp [hm]

/-- A context whose curve evaluation raises a host error at every
offset. -/
def ctxRaise : BContext :=
  ⟨some ⟨"CURVE", [1]⟩, fun _ => Except.error ()⟩

/-- C5 counterexample: a run whose first evaluation raises exits with
the propagated error while the temporary reader is still linked, so the
reader is not destroyed on every exit path. -/
theorem reader_leak_on_error :
    (sample_curve_as_csv ctxRaise ("track".toList) 1).result =
        Except.error () ∧
      (sample_curve_as_csv ctxRaise ("track".toList) 1).readerLinked = true := by
  exact ⟨rfl, rfl⟩

/-- Orthonormality (non-degeneracy) of an evaluated frame: the three
axis columns are unit length and mutually orthogonal. -/
def isOrthonormalFrame (m : Mat4) : Prop :=
  m.col0.lengthSq = 1 ∧ m.col1.lengthSq = 1 ∧ m.col2.lengthSq = 1 ∧
  m.col0.dot m.col1 = 0 ∧ m.col0.dot m.col2 = 0 ∧ m.col1.dot m.col2 = 0

/-- A context whose active curve has 2 native points and always
evaluates to the orthonormal frame mFrame. -/
def ctxFrame : BContext :=
  ⟨some ⟨"CURVE", [2]⟩, fun _ => Except.ok mFrame⟩

/-- C1: evaluation of the export at the non-degenerate orthonormal frame
with Right=(1,0,0), Front=(0,1,0), Up=(0,0,1), Position=(10,20,30).  The
code serializes literal zeros into the Front columns (indices 4-6) and
Left columns (indices 7-9) of every row, instead of the inverse-mapped
forward and right axes Front=(0,0,-1), Left=(-1,0,0) that the claim (and
the repository test suite) require. -/
theorem export_front_left_zero :
    isOrthonormalFrame mFrame ∧
      (sample_curve_as_csv ctxFrame ("track".toList) 2).writes.map
          CsvWrite.rows =
        [[[1, 10, 30, -20, 0, 0, 0, 0, 0, 0, 0, 1, 0],
          [2, 10, 30, -20, 0, 0, 0, 0, 0, 0, 0, 1, 0]]] := by
  constructor
  · refine ⟨?_, ?_, ?_, ?_, ?_, ?_⟩ <;>
      norm_num [isOrthonormalFrame, mFrame, Vec3.lengthSq, Vec3.dot]
  · have hmapM : (sampleOffsets [2] 2).mapM (fun _ => (Except.ok mFrame : Except Unit Mat4)) =
        Except.ok [mFrame, mFrame] := by
      have hoff : sampleOffsets [2] 2 = [0, 1] := by
        unfold sampleOffsets resolveCount largestIndex
        norm_num [List.range_succ]
      rw [hoff]
      rfl
    rw [show ctxFrame = ⟨some ⟨"CURVE", [2]⟩, fun _ => Except.ok mFrame⟩ from rfl,
      sample_curve_as_csv_some]
    rw [if_neg (by simp)]
    rw [show (⟨"CURVE", [2]⟩ : BObject).splinePointCounts = [2] from rfl, hmapM]
    simp only [List.enum, List.enumFrom, List.map_cons, List.map_nil, List.map]
    norm_num [csvRow, mFrame]

theorem lastDotIdx_append (l1 l2 : List Char) :
    lastDotIdx (l1 ++ l2) =
      match lastDotIdx l2 with
      | some j => some (l1.length + j)
      | none => lastDotIdx l1 := by
  induction l1 with
  | nil =>
    cases h : lastDotIdx l2 <;> simp [lastDotIdx, h]
  | cons c cs ih =>
    show (match lastDotIdx (cs ++ l2) with
      | some j => some (j + 1)
      | none => if c = '.' then some 0 else none) = _
    rw [ih]
    cases h : lastDotIdx l2
    · rfl
    · simp only [List.length_cons, Option.some.injEq]
      omega

theorem lastDotIdx_csvExt : lastDotIdx csvExt = some 0 := by decide

theorem pathSuffix_length_lt (name : List Char) (h : name ≠ []) :
    (pathSuffix name).length < name.length := by
  have hpos : 0 < name.length := List.length_pos.mpr h
  unfold pathSuffix
  cases hld : lastDotIdx name with
  | none => simpa using hpos
  | some j =>
    show (if 0 < j ∧ j + 1 < name.length then name.drop j else []).length <
      name.length
    by_cases hc : 0 < j ∧ j + 1 < name.length
    · rw [if_pos hc]
      rw [List.length_drop]
      omega
    · rw [if_neg hc]
      simpa using hpos

theorem pathStem_ne_nil (name : List Char) (h : name ≠ []) :
    pathStem name ≠ [] := by
  have hlt := pathSuffix_length_lt name h
  intro hnil
  have hlen := congrArg List.length hnil
  rw [pathStem, List.length_take] at hlen
  simp at hlen
  omega

theorem pathSuffix_append_csv (s : List Char) (hs : s ≠ []) :
    pathSuffix (s ++ csvExt) = csvExt := by
  have h1 : lastDotIdx (s ++ csvExt) = some s.length := by
    rw [lastDotIdx_append, lastDotIdx_csvExt]
    show some (s.length + 0) = some s.length
    rw [Nat.add_zero]
  have hpos : 0 < s.length := List.length_pos.mpr hs
  unfold pathSuffix
  rw [h1]
  show (if 0 < s.length ∧ s.length + 1 < (s ++ csvExt).length
    then (s ++ csvExt).drop s.length else []) = csvExt
  rw [if_pos ⟨hpos, by simp [List.length_append, csvExt]⟩]
  exact List.drop_left s csvExt

/-- C9: a successful export writes its serialized text to the supplied
path with the file extension of the final path component replaced by
".csv", regardless of the extension originally present (or of its
absence): the single write goes to stem ++ ".csv" and the written name
has extension ".csv". -/
theorem export_path_csv (context : BContext) (name : List Char)
    (point_count : ℕ) (hname : name ≠ [])
    (hfin : (sample_curve_as_csv context name point_count).result =
      Except.ok OpResult.finished) :
    ∃ w, (sample_curve_as_csv context name point_count).writes = [w] ∧
      w.path = pathStem name ++ csvExt ∧ pathSuffix w.path = csvExt := by
  obtain ⟨ao, evalAt⟩ := context
  rcases ao with _ | curve
  · rw [sample_curve_as_csv_none] at hfin
    simp at hfin
  · rw [sample_curve_as_csv_some] at hfin ⊢
    by_cases ht : curve.objType ≠ "CURVE"
    · rw [if_pos ht] at hfin
      simp at hfin
    · rw [if_neg ht] at hfin ⊢
      rcases hm : (sampleOffsets curve.splinePointCounts point_count).mapM evalAt
        with e | ms
      · rw [hm] at hfin
        simp at hfin
      · exact ⟨_, rfl, rfl,
          pathSuffix_append_csv (pathStem name) (pathStem_ne_nil name hname)⟩

/-- Witness for export_path_csv: exporting to "track.txt" writes the
single file "track.csv". -/
theorem export_path_csv_witness :
    ∃ w, (sample_curve_as_csv ctxFrame ("track.txt".toList) 1).writes = [w] ∧
      w.path = pathStem ("track.txt".toList) ++ csvExt ∧
      pathSuffix w.path = csvExt :=
  export_path_csv ctxFrame ("track.txt".toList) 1 (by decide) rfl

/-!
## Twist reconstruction (apply_tilt_values, source lines 99-166)

The trigonometric geometry is modelled over the reals.  The input of
apply_tilt_values is the parsed vertex list, of which the function reads
only the pos and up keys.
-/

theorem to_target_eq {α : Type} [CommRing α] (v : Vec3 α) :
    to_target v = ⟨v.x, -v.z, v.y⟩ := by
  obtain ⟨x, y, z⟩ := v
  simp [to_target, TO_BLENDER_COORDINATES, Vec3.dot]

/-- mathutils normalized(): the vector scaled to unit length, with the
zero vector mapped to itself. -/
noncomputable def Vec3.normalized (v : Vec3 ℝ) : Vec3 ℝ :=
  if v.lengthSq = 0 then ⟨0, 0, 0⟩
  else Vec3.smul (1 / Real.sqrt v.lengthSq) v

/-- A rotation quaternion. -/
structure Quat where
  w : ℝ
  x : ℝ
  y : ℝ
  z : ℝ

/-- Modelled from the spec: mathutils.Vector.rotation_difference is an
external library routine, not part of this repository.  Per section 4.3
and the design notes of the specification it is the minimal rotation
carrying the first unit vector onto the second, built as a quaternion
from the cross product and the dot product of the two vectors: the
unnormalized quaternion (1 + a.dot b, a.cross b), normalized. -/
noncomputable def rotation_difference (a b : Vec3 ℝ) : Quat :=
  let d := a.dot b
  let c := a.cross b
  let n := Real.sqrt ((1 + d) ^ 2 + c.lengthSq)
  if n = 0 then ⟨1, 0, 0, 0⟩
  else ⟨(1 + d) / n, c.x / n, c.y / n, c.z / n⟩

/-- Application of a rotation quaternion to a vector (the expression
`quat @ normal` of the source): v + 2 w (u x v) + 2 u x (u x v) for
u the vector part. -/
noncomputable def quatApply (q : Quat) (v : Vec3 ℝ) : Vec3 ℝ :=
  let u : Vec3 ℝ := ⟨q.x, q.y, q.z⟩
  let t := Vec3.smul 2 (u.cross v)
  ⟨v.x + q.w * t.x + (u.cross t).x,
   v.y + q.w * t.y + (u.cross t).y,
   v.z + q.w * t.z + (u.cross t).z⟩

/-- One input vertex as read by apply_tilt_values: the pos and up keys of
the parsed dictionary. -/
structure TrackVertex where
  pos : Vec3 ℝ
  up : Vec3 ℝ

/-- The geometric tangents of the poly spline built at source lines
113-125, for indices i with i + 1 < count: the normalized difference of
consecutive points, falling back to the previous tangent (or +Z at the
first index) when consecutive points coincide. -/
noncomputable def tangentCore (pts : List (Vec3 ℝ)) : ℕ → Vec3 ℝ
  | 0 =>
    let diff := (pts.getD 1 ⟨0, 0, 0⟩).sub (pts.getD 0 ⟨0, 0, 0⟩)
    if 0 < diff.lengthSq then diff.normalized else ⟨0, 0, 1⟩
  | i + 1 =>
    let diff := (pts.getD (i + 2) ⟨0, 0, 0⟩).sub (pts.getD (i + 1) ⟨0, 0, 0⟩)
    if 0 < diff.lengthSq then diff.normalized else tangentCore pts i

/-- The full tangent list of the source: one entry per point, the last
entry repeating the previous one (lines 122-125), and a +Z default for a
single point. -/
noncomputable def tangentAt (pts : List (Vec3 ℝ)) (i : ℕ) : Vec3 ℝ :=
  if i + 1 < pts.length then tangentCore pts i
  else if 1 < pts.length then tangentCore pts (pts.length - 2)
  else ⟨0, 0, 1⟩

/-- The seed reference normal (source lines 127-134): a helper axis +Z
(or +X when the first tangent is nearly parallel to +Z) double-crossed
with the first tangent and normalized. -/
noncomputable def initialNormal (pts : List (Vec3 ℝ)) : Vec3 ℝ :=
  let t0 := tangentAt pts 0
  let up_vec : Vec3 ℝ := if |t0.z| > 0.9999 then ⟨1, 0, 0⟩ else ⟨0, 0, 1⟩
  ((t0.cross up_vec).cross t0).normalized

/-- The running reference normal at station i, as maintained by the walk
of source lines 136-144: transported from tangent i-1 to tangent i by
rotation_difference unless the two tangents agree within the cosine
tolerance 0.999999, in which case it is carried over unchanged. -/
noncomputable def normalAt (pts : List (Vec3 ℝ)) : ℕ → Vec3 ℝ
  | 0 => initialNormal pts
  | i + 1 =>
    let t_prev := tangentAt pts i
    let t_curr := tangentAt pts (i + 1)
    let n := normalAt pts i
    if t_prev.dot t_curr < 0.999999 then
      quatApply (rotation_difference t_prev t_curr) n
    else n

/-- The projection of the mapped up vector onto the plane perpendicular
to the tangent (source line 150). -/
def projTargetUp (t target_up : Vec3 ℝ) : Vec3 ℝ :=
  target_up.sub (Vec3.smul (target_up.dot t) t)

/-- The signed tilt angle at one station (source lines 146-166): the
arccosine of the clamped dot product of the reference normal with the
normalized projected target up (falling back to the normal itself when
the projection is degenerate), negated when the cross product points
against the tangent. -/
noncomputable def tiltAt (n t target_up : Vec3 ℝ) : ℝ :=
  let tproj := if 0 < (projTargetUp t target_up).lengthSq
    then (projTargetUp t target_up).normalized else n
  let d := max (-1 : ℝ) (min 1 (n.dot tproj))
  let a := Real.arccos d
  if (n.cross tproj).dot t < 0 then -a else a

/-- apply_tilt_values: the tilts written to the spline points, one per
vertex, in order; an empty vertex list writes nothing (source line
105). -/
noncomputable def apply_tilt_values (vs : List TrackVertex) : List ℝ :=
  if vs.isEmpty then []
  else
    (List.range vs.length).map (fun i =>
      tiltAt (normalAt (vs.map (fun v => to_target v.pos)) i)
        (tangentAt (vs.map (fun v => to_target v.pos)) i)
        ((vs.map (fun v => to_target v.up)).getD i ⟨0, 0, 0⟩))

theorem tangentAt_single (p : Vec3 ℝ) : tangentAt [p] 0 = ⟨0, 0, 1⟩ := by
  unfold tangentAt
  norm_num

theorem normalized_e1 : Vec3.normalized ⟨1, 0, 0⟩ = ⟨1, 0, 0⟩ := by
  unfold Vec3.normalized
  rw [show (⟨1, 0, 0⟩ : Vec3 ℝ).lengthSq = 1 by norm_num [Vec3.lengthSq, Vec3.dot]]
  rw [if_neg one_ne_zero, Real.sqrt_one]
  norm_num [Vec3.smul]

theorem normalAt_single (p : Vec3 ℝ) : normalAt [p] 0 = ⟨1, 0, 0⟩ := by
  show initialNormal [p] = ⟨1, 0, 0⟩
  unfold initialNormal
  rw [tangentAt_single]
  show ((Vec3.cross ⟨0, 0, 1⟩
      (if |(⟨(0 : ℝ), 0, 1⟩ : Vec3 ℝ).z| > 0.9999 then ⟨1, 0, 0⟩
        else ⟨0, 0, 1⟩)).cross ⟨0, 0, 1⟩).normalized = ⟨1, 0, 0⟩
  rw [if_pos (by norm_num)]
  rw [show (Vec3.cross (⟨0, 0, 1⟩ : Vec3 ℝ) ⟨1, 0, 0⟩).cross ⟨0, 0, 1⟩ = ⟨1, 0, 0⟩ by
    norm_num [Vec3.cross]]
  exact normalized_e1

theorem tiltAt_degenerate_up (u : ℝ) :
    tiltAt ⟨1, 0, 0⟩ ⟨0, 0, 1⟩ ⟨0, 0, u⟩ = 0 := by
  have hproj : projTargetUp ⟨0, 0, 1⟩ ⟨0, 0, u⟩ = ⟨0, 0, 0⟩ := by
    simp [projTargetUp, Vec3.sub, Vec3.smul, Vec3.dot]
  have h1 : ¬ (0 < (⟨0, 0, 0⟩ : Vec3 ℝ).lengthSq) := by
    norm_num [Vec3.lengthSq, Vec3.dot]
  have h2 : (⟨1, 0, 0⟩ : Vec3 ℝ).dot ⟨1, 0, 0⟩ = 1 := by norm_num [Vec3.dot]
  have h3 : ¬ (((⟨1, 0, 0⟩ : Vec3 ℝ).cross ⟨1, 0, 0⟩).dot ⟨0, 0, 1⟩ < 0) := by
    norm_num [Vec3.cross, Vec3.dot]
  unfold tiltAt
  rw [hproj]
  norm_num [h1, h2, h3, Real.arccos_one]

theorem apply_tilt_values_single (v : TrackVertex) :
    apply_tilt_values [v] = [tiltAt ⟨1, 0, 0⟩ ⟨0, 0, 1⟩ (to_target v.up)] := by
  unfold apply_tilt_values
  rw [if_neg (by simp)]
  simp only [List.length_cons, List.length_nil, List.range_succ, List.range_zero,
    List.nil_append, List.map_cons, List.map_nil, List.getD_cons_zero]
  rw [tangentAt_single, normalAt_single]

/-- C2 counterexample: the single station with recorded up vector
(0,0,1) yields the tilt -(pi/2), not 0, so the tilt of a one-station
input does depend on the recorded up vector. -/
theorem tilt_single_station_cex :
    apply_tilt_values [⟨⟨0, 0, 0⟩, ⟨0, 0, 1⟩⟩] = [-(Real.pi / 2)] ∧
      -(Real.pi / 2) ≠ 0 := by
  constructor
  · rw [apply_tilt_values_single]
    have htup : to_target (⟨0, 0, 1⟩ : Vec3 ℝ) = ⟨0, -1, 0⟩ := by
      rw [to_target_eq]
    rw [htup]
    have hproj : projTargetUp ⟨0, 0, 1⟩ ⟨0, -1, 0⟩ = ⟨0, -1, 0⟩ := by
      simp [projTargetUp, Vec3.sub, Vec3.smul, Vec3.dot]
    have hpos : 0 < (⟨0, -1, 0⟩ : Vec3 ℝ).lengthSq := by
      norm_num [Vec3.lengthSq, Vec3.dot]
    have hnorm : Vec3.normalized ⟨0, -1, 0⟩ = ⟨0, -1, 0⟩ := by
      unfold Vec3.normalized
      rw [show (⟨0, -1, 0⟩ : Vec3 ℝ).lengthSq = 1 by norm_num [Vec3.lengthSq, Vec3.dot]]
      rw [if_neg one_ne_zero, Real.sqrt_one]
      norm_num [Vec3.smul]
    have hd : (⟨1, 0, 0⟩ : Vec3 ℝ).dot ⟨0, -1, 0⟩ = 0 := by norm_num [Vec3.dot]
    have hcross : ((⟨1, 0, 0⟩ : Vec3 ℝ).cross ⟨0, -1, 0⟩).dot ⟨0, 0, 1⟩ = -1 := by
      norm_num [Vec3.cross, Vec3.dot]
    unfold tiltAt
    rw [hproj]
    norm_num [hpos, hnorm, hd, hcross, Real.arccos_zero]
  · simp [Real.pi_ne_zero]

/-- C2 (amended): a single-station input yields exactly one tilt value;
that value is 0 whenever the x and z components of the recorded up
vector vanish (so that the projection of the mapped up vector onto the
plane perpendicular to the default tangent is degenerate, as for the
canonical up (0,1,0)), but for general up vectors it is the signed angle
from the default normal to the projected mapped up and can differ from
0. -/
theorem tilt_single_station (v : TrackVertex) :
    (apply_tilt_values [v]).length = 1 ∧
      (v.up.x = 0 → v.up.z = 0 → apply_tilt_values [v] = [0]) := by
  constructor
  · rw [apply_tilt_values_single]
    rfl
  · intro hx hz
    rw [apply_tilt_values_single, to_target_eq]
    rw [hx, hz, neg_zero]
    rw [tiltAt_degenerate_up]

/-- Witness for tilt_single_station: the station at the origin with the
canonical up vector (0,1,0) yields the single tilt 0. -/
theorem tilt_single_station_witness :
    (apply_tilt_values [⟨⟨0, 0, 0⟩, ⟨0, 1, 0⟩⟩]).length = 1 ∧
      apply_tilt_values [⟨⟨0, 0, 0⟩, ⟨0, 1, 0⟩⟩] = [0] :=
  ⟨(tilt_single_station ⟨⟨0, 0, 0⟩, ⟨0, 1, 0⟩⟩).1,
   (tilt_single_station ⟨⟨0, 0, 0⟩, ⟨0, 1, 0⟩⟩).2 rfl rfl⟩

/-- C8: during the twist reconstruction walk, the reference normal at
station i+1 is identical to the normal at station i whenever the two
tangents agree within the cosine tolerance (dot product at least
0.999999, identity transport), and otherwise is the previous normal
rotated by the minimal rotation carrying tangent i onto tangent i+1. -/
theorem transport_identity_or_rotation (pts : List (Vec3 ℝ)) (i : ℕ) :
    ((0.999999 : ℝ) ≤ (tangentAt pts i).dot (tangentAt pts (i + 1)) →
      normalAt pts (i + 1) = normalAt pts i) ∧
    ((tangentAt pts i).dot (tangentAt pts (i + 1)) < 0.999999 →
      normalAt pts (i + 1) =
        quatApply (rotation_difference (tangentAt pts i) (tangentAt pts (i + 1)))
          (normalAt pts i)) := by
  constructor
  · intro h
    show (if (tangentAt pts i).dot (tangentAt pts (i + 1)) < 0.999999 then
        quatApply (rotation_difference (tangentAt pts i) (tangentAt pts (i + 1)))
          (normalAt pts i)
      else normalAt pts i) = normalAt pts i
    rw [if_neg (not_lt.mpr h)]
  · intro h
    show (if (tangentAt pts i).dot (tangentAt pts (i + 1)) < 0.999999 then
        quatApply (rotation_difference (tangentAt pts i) (tangentAt pts (i + 1)))
          (normalAt pts i)
      else normalAt pts i) = _
    rw [if_pos h]

/-- Three collinear evenly spaced points along the x axis. -/
noncomputable def pts3 : List (Vec3 ℝ) :=
  [⟨0, 0, 0⟩, ⟨1, 0, 0⟩, ⟨2, 0, 0⟩]

/-- Witness for transport_identity_or_rotation: with three collinear
points the consecutive tangents agree, so the transported normal at the
last station equals the one before it. -/
theorem transport_identity_witness :
    (0.999999 : ℝ) ≤ (tangentAt pts3 1).dot (tangentAt pts3 2) ∧
      normalAt pts3 2 = normalAt pts3 1 := by
  have he1 : Vec3.normalized ⟨1, 0, 0⟩ = ⟨1, 0, 0⟩ := normalized_e1
  have hsub : Vec3.sub (⟨2, 0, 0⟩ : Vec3 ℝ) ⟨1, 0, 0⟩ = ⟨1, 0, 0⟩ := by
    norm_num [Vec3.sub]
  have hcore : tangentCore pts3 1 = ⟨1, 0, 0⟩ := by
    show (if 0 < (Vec3.sub (pts3.getD 2 ⟨0, 0, 0⟩) (pts3.getD 1 ⟨0, 0, 0⟩)).lengthSq
      then (Vec3.sub (pts3.getD 2 ⟨0, 0, 0⟩) (pts3.getD 1 ⟨0, 0, 0⟩)).normalized
      else tangentCore pts3 0) = _
    rw [show pts3.getD 2 ⟨0, 0, 0⟩ = ⟨2, 0, 0⟩ from rfl,
      show pts3.getD 1 ⟨0, 0, 0⟩ = ⟨1, 0, 0⟩ from rfl]
    simp only [hsub]
    rw [if_pos (by norm_num [Vec3.lengthSq, Vec3.dot])]
    exact he1
  have ht1 : tangentAt pts3 1 = ⟨1, 0, 0⟩ := by
    unfold tangentAt
    rw [if_pos (by norm_num [pts3])]
    exact hcore
  have ht2 : tangentAt pts3 2 = ⟨1, 0, 0⟩ := by
    unfold tangentAt
    rw [if_neg (by norm_num [pts3]), if_pos (by norm_num [pts3])]
    rw [show pts3.length - 2 = 1 from rfl]
    exact hcore
  have hdot : (0.999999 : ℝ) ≤ (tangentAt pts3 1).dot (tangentAt pts3 2) := by
    rw [ht1, ht2]
    norm_num [Vec3.dot]
  exact ⟨hdot, (transport_identity_or_rotation pts3 1).1 hdot⟩
